import Mathlib

/-!
Shallow embedding of `src/backend/routers/announcements.py`: a CRUD router for
time-bounded announcements.  Pure Python functions become Lean functions; the
MongoDB announcements collection is modelled as a `List StoredDoc` threaded
explicitly through the handlers; external collaborators (base64 decoding, the
`datetime.fromisoformat` parser, the identity store and the password verifier
from the `database` module, which is not part of the sources) are abstracted
into an `Env` record of oracles, exactly the interfaces the spec declares in
its section 6.  BSON `ObjectId` values are modelled by their 24-hex-character
string form, so Python's `str(object_id)` is the identity on the model.
-/

/-- Lexicographic strict comparison of strings as lists of characters,
modelling MongoDB's `$gt` comparison on BSON strings (bytewise on UTF-8,
which agrees with code-point order). `strLtB a b` means `a < b`. -/
def strLtB : List Char → List Char → Bool
  | _, [] => false
  | [], _ :: _ => true
  | a :: as, b :: bs =>
    if a.toNat < b.toNat then true
    else if b.toNat < a.toNat then false
    else strLtB as bs

/-- Lexicographic `≤` on strings as lists of characters, used to model the
ordering `list.sort(key=..., reverse=True)` produces. -/
def strLeB : List Char → List Char → Bool
  | [], _ => true
  | _ :: _, [] => false
  | a :: as, b :: bs =>
    if a.toNat < b.toNat then true
    else if b.toNat < a.toNat then false
    else strLeB as bs

/-- A teacher document of the identity store (`teachers_collection`): the code
reads `teacher.get("password", "")` (so a missing hash behaves as `""`) and
`current_user["username"]` (so a missing username is a Python `KeyError`);
both fields are therefore optional in the model. -/
structure Teacher where
  _id : String
  username : Option String
  password : Option String
deriving DecidableEq

/-- An announcement document as stored in `announcements_collection`.
`created_at` is optional because the sort key is read with
`x.get("created_at", "")`; the `_id` is the ObjectId in its hex-string form. -/
structure StoredDoc where
  _id : String
  title : String
  message : String
  start_date : Option String
  expiration_date : String
  created_by : String
  created_at : Option String
deriving DecidableEq

/-- Request body of `POST /announcements` (pydantic `AnnouncementCreate`):
`title` 1–200 chars and `message` 1–2000 chars are enforced by the framework
before the handler runs, so they appear as hypotheses of the theorems. -/
structure AnnouncementCreate where
  title : String
  message : String
  start_date : Option String
  expiration_date : String
deriving DecidableEq

/-- Request body of `PUT /announcements/{id}` (pydantic `AnnouncementUpdate`):
every field optional. -/
structure AnnouncementUpdate where
  title : Option String
  message : Option String
  start_date : Option String
  expiration_date : Option String
deriving DecidableEq

/-- Errors a handler can surface: `http status detail` models
`HTTPException(status_code, detail)`; `keyError` models an unhandled Python
`KeyError` escaping the handler; `noneTypeError` models an unhandled
`TypeError` on subscripting `None`. -/
inductive ApiError where
  | http (statusCode : Nat) (detail : String)
  | keyError (key : String)
  | noneTypeError
deriving DecidableEq

instance {ε α : Type} [DecidableEq ε] [DecidableEq α] : DecidableEq (Except ε α) := fun a b =>
  match a, b with
  | .error e, .error f =>
    if h : e = f then .isTrue (congrArg Except.error h)
    else .isFalse fun hc => h (Except.error.inj hc)
  | .error _, .ok _ => .isFalse fun hc => Except.noConfusion hc
  | .ok _, .error _ => .isFalse fun hc => Except.noConfusion hc
  | .ok x, .ok y =>
    if h : x = y then .isTrue (congrArg Except.ok h)
    else .isFalse fun hc => h (Except.ok.inj hc)

/-- Modelled from the spec: the external collaborators of section 6, plus the
Python standard library.  `b64decode` is `base64.b64decode` composed with
UTF-8 decoding (`none` = `binascii.Error` or `UnicodeDecodeError`);
`verify_password` is the credential verifier `verify(stored_hash, secret)`
from the repository's `database` module, which is not among the sources;
`fromisoformat_ok` tells whether `datetime.fromisoformat` accepts a string;
`find_teacher` is the identity-store lookup `find_identity`, whose `.error`
case is an infrastructure failure of the store. -/
structure Env where
  b64decode : String → Option String
  verify_password : String → String → Bool
  fromisoformat_ok : String → Bool
  find_teacher : String → Except Unit (Option Teacher)

/-- Python's `decoded.split(':', 1)`, returning the parts around the first
colon, or `none` when there is no colon (the two-variable unpacking then
raises `ValueError`). -/
def splitColon : List Char → Option (List Char × List Char)
  | [] => none
  | c :: cs =>
    if c = ':' then some ([], cs)
    else
      match splitColon cs with
      | none => none
      | some (l, r) => some (c :: l, r)

/-- `get_current_user`: decode the bearer credential, split on the first
colon, look the username up in `teachers_collection`, verify the password
against the stored hash (`teacher.get("password", "")`). -/
def get_current_user (env : Env) (credentials : String) : Except ApiError Teacher :=
  match env.b64decode credentials with
  | none => .error (.http 401 "Invalid token encoding")
  | some decoded =>
    match splitColon decoded.data with
    | none => .error (.http 401 "Token format invalid")
    | some (username, password) =>
      match env.find_teacher (String.mk username) with
      | .error _ => .error (.http 500 "Database error during authentication")
      | .ok none => .error (.http 401 "Invalid credentials")
      | .ok (some teacher) =>
        if env.verify_password (teacher.password.getD "") (String.mk password) then
          .ok teacher
        else
          .error (.http 401 "Invalid credentials")

/-- Python's `date_str.replace('Z', '+00:00')`: replace every `Z`. -/
def replaceZ : List Char → List Char
  | [] => []
  | c :: cs =>
    if c = 'Z' then '+' :: '0' :: '0' :: ':' :: '0' :: '0' :: replaceZ cs
    else c :: replaceZ cs

/-- `validate_date`: `datetime.fromisoformat(date_str.replace('Z', '+00:00'))`
wrapped in a `try`, returning a boolean. -/
def validate_date (env : Env) (date_str : String) : Bool :=
  env.fromisoformat_ok (String.mk (replaceZ date_str.data))

/-- The sort key `lambda x: x.get("created_at", "")`, as a character list. -/
def createdKey (x : StoredDoc) : List Char := (x.created_at.getD "").data

/-- The comparison realised by `list.sort(key=..., reverse=True)`:
`x` may precede `y` when `key y ≤ key x` (descending). -/
def createdDesc (x y : StoredDoc) : Bool := strLeB (createdKey y) (createdKey x)

/-- `GET /announcements` (`get_announcements`): filter the collection by
`{"expiration_date": {"$gt": now.isoformat()}}`, then sort by `created_at`
descending.  `now` is the ISO string of `datetime.utcnow()`.  The
`str(_id)` conversion is the identity on the model. -/
def get_announcements (now : String) (store : List StoredDoc) : List StoredDoc :=
  (store.filter fun a => strLtB now.data a.expiration_date.data).mergeSort createdDesc

/-- `GET /announcements/all` (`get_all_announcements`): every document, same
sort; `current_user` is the authenticated principal injected by `Depends`. -/
def get_all_announcements (current_user : Teacher) (store : List StoredDoc) : List StoredDoc :=
  let _ := current_user
  store.mergeSort createdDesc

/-- `POST /announcements` (`create_announcement`): validate the dates (note
the Python truthiness test `if announcement.start_date and ...` skips an
empty-string `start_date`), build the document — reading
`current_user["username"]`, a `KeyError` when absent — and insert it.
`now` is this call's `datetime.utcnow().isoformat()` and `new_id` the
ObjectId the store generates; returns the response and the new store. -/
def create_announcement (env : Env) (announcement : AnnouncementCreate)
    (current_user : Teacher) (now : String) (new_id : String)
    (store : List StoredDoc) : Except ApiError StoredDoc × List StoredDoc :=
  if (match announcement.start_date with
      | some s => s ≠ "" && !validate_date env s
      | none => false) then
    (.error (.http 400 "Invalid start_date format"), store)
  else if !validate_date env announcement.expiration_date then
    (.error (.http 400 "Invalid expiration_date format"), store)
  else
    match current_user.username with
    | none => (.error (.keyError "username"), store)
    | some uname =>
      let doc : StoredDoc :=
        { _id := new_id
          title := announcement.title
          message := announcement.message
          start_date := announcement.start_date
          expiration_date := announcement.expiration_date
          created_by := uname
          created_at := some now }
      (.ok doc, store ++ [doc])

/-- Hex-digit test for ObjectId validity. -/
def isHexChar (c : Char) : Bool :=
  ('0'.toNat ≤ c.toNat && c.toNat ≤ '9'.toNat) ||
  ('a'.toNat ≤ c.toNat && c.toNat ≤ 'f'.toNat) ||
  ('A'.toNat ≤ c.toNat && c.toNat ≤ 'F'.toNat)

/-- `ObjectId(announcement_id)`: a string parses as a BSON ObjectId exactly
when it is 24 hexadecimal characters; otherwise `bson` raises `InvalidId`,
which both handlers turn into a 400. -/
def objectIdParse (s : String) : Option String :=
  if s.data.length = 24 && s.data.all isHexChar then some s else none

/-- `find_one({"_id": obj_id})`: first document with the given id. -/
def findOne (oid : String) : List StoredDoc → Option StoredDoc
  | [] => none
  | d :: ds => if d._id = oid then some d else findOne oid ds

/-- The effect of `{"$set": update_doc}` on one document, where `update_doc`
holds exactly the non-`None` fields of the payload. -/
def applySet (u : AnnouncementUpdate) (d : StoredDoc) : StoredDoc :=
  { d with
    title := u.title.getD d.title
    message := u.message.getD d.message
    start_date := match u.start_date with
      | some s => some s
      | none => d.start_date
    expiration_date := u.expiration_date.getD d.expiration_date }

/-- `update_one({"_id": oid}, {"$set": ...})`: rewrite the first matching
document and report `modified_count`, which MongoDB leaves at 0 when the
`$set` changes nothing (the spec's "zero-effective-update"). -/
def updateFirst (oid : String) (u : AnnouncementUpdate) :
    List StoredDoc → List StoredDoc × Nat
  | [] => ([], 0)
  | d :: ds =>
    if d._id = oid then
      (applySet u d :: ds, if applySet u d = d then 0 else 1)
    else
      let r := updateFirst oid u ds
      (d :: r.1, r.2)

/-- `delete_one({"_id": oid})`: remove the first matching document and report
`deleted_count`. -/
def deleteFirst (oid : String) : List StoredDoc → List StoredDoc × Nat
  | [] => ([], 0)
  | d :: ds =>
    if d._id = oid then (ds, 1)
    else
      let r := deleteFirst oid ds
      (d :: r.1, r.2)

/-- `if not update_doc`: the payload supplied none of the four fields. -/
def updateEmpty (u : AnnouncementUpdate) : Bool :=
  u.title.isNone && u.message.isNone && u.start_date.isNone && u.expiration_date.isNone

/-- `PUT /announcements/{id}` (`update_announcement`): parse the id (invalid
→ 400), check existence (missing → 404), validate any supplied date (`is not
None`, no truthiness here), reject an empty payload, `$set` the supplied
fields, treat `modified_count == 0` as a 500, and re-fetch the document.
Returns the response and the resulting store. -/
def update_announcement (env : Env) (announcement_id : String)
    (announcement : AnnouncementUpdate) (store : List StoredDoc) :
    Except ApiError StoredDoc × List StoredDoc :=
  match objectIdParse announcement_id with
  | none => (.error (.http 400 "Invalid announcement ID"), store)
  | some obj_id =>
    match findOne obj_id store with
    | none => (.error (.http 404 "Announcement not found"), store)
    | some _existing =>
      if (match announcement.start_date with
          | some s => !validate_date env s
          | none => false) then
        (.error (.http 400 "Invalid start_date format"), store)
      else if (match announcement.expiration_date with
          | some s => !validate_date env s
          | none => false) then
        (.error (.http 400 "Invalid expiration_date format"), store)
      else if updateEmpty announcement then
        (.error (.http 400 "No fields to update"), store)
      else
        let r := updateFirst obj_id announcement store
        if r.2 = 0 then
          (.error (.http 500 "Failed to update announcement"), r.1)
        else
          match findOne obj_id r.1 with
          | some updated => (.ok updated, r.1)
          | none => (.error .noneTypeError, r.1)

/-- `DELETE /announcements/{id}` (`delete_announcement`): parse the id
(invalid → 400 via the bare `except`), check existence (missing → 404),
delete, treat `deleted_count == 0` as a 500.  On success the handler returns
`{"message": "Announcement deleted successfully"}`, modelled by the
message string. -/
def delete_announcement (announcement_id : String) (store : List StoredDoc) :
    Except ApiError String × List StoredDoc :=
  match objectIdParse announcement_id with
  | none => (.error (.http 400 "Invalid announcement ID"), store)
  | some obj_id =>
    match findOne obj_id store with
    | none => (.error (.http 404 "Announcement not found"), store)
    | some _existing =>
      let r := deleteFirst obj_id store
      if r.2 = 0 then
        (.error (.http 500 "Failed to delete announcement"), r.1)
      else
        (.ok "Announcement deleted successfully", r.1)

/-! ### Witness fixtures: a concrete environment, identities and documents -/

/-- A concrete oracle environment for evaluating the handlers: base64
decoding always yields `"u:p"`, every date string parses, the identity store
holds no teacher, every password verifies. -/
def envW : Env :=
  { b64decode := fun _ => some "u:p"
    verify_password := fun _ _ => true
    fromisoformat_ok := fun _ => true
    find_teacher := fun _ => .ok none }

/-- A syntactically valid ObjectId (24 hex characters). -/
def idW : String := "0123456789abcdef01234567"

/-- A concrete stored announcement under `idW`. -/
def docW : StoredDoc :=
  { _id := idW
    title := "Title"
    message := "Msg"
    start_date := some "2099-01-01T00:00:00"
    expiration_date := "2030-01-01T00:00:00Z"
    created_by := "teacher"
    created_at := some "2026-01-01T00:00:00" }

/-- A teacher record that has a username. -/
def teacherW : Teacher :=
  { _id := "alice", username := some "alice", password := some "hash" }

/-- A teacher record with no `username` key on file. -/
def teacherNoName : Teacher :=
  { _id := "bob", username := none, password := some "hash" }

/-- A concrete valid create request. -/
def reqW : AnnouncementCreate :=
  { title := "T"
    message := "M"
    start_date := some "2099-01-01T00:00:00"
    expiration_date := "2030-01-01T00:00:00Z" }

/-- An environment whose identity store returns `teacherNoName`. -/
def envNoName : Env :=
  { envW with find_teacher := fun _ => .ok (some teacherNoName) }

/-! ### Ordering lemmas for the lexicographic comparisons -/

theorem strLeB_total (as bs : List Char) : (strLeB as bs || strLeB bs as) = true := by
  induction as generalizing bs with
  | nil => cases bs <;> simp [strLeB]
  | cons a as ih =>
    cases bs with
    | nil => simp [strLeB]
    | cons b bs =>
      simp only [strLeB]
      rcases Nat.lt_trichotomy a.toNat b.toNat with h | h | h
      · simp [h]
      · simp [h, Nat.lt_irrefl, ih bs]
      · simp [h, Nat.lt_asymm h]

theorem strLeB_trans (as bs cs : List Char) (h1 : strLeB as bs = true)
    (h2 : strLeB bs cs = true) : strLeB as cs = true := by
  induction as generalizing bs cs with
  | nil => cases cs <;> simp [strLeB]
  | cons a as ih =>
    cases bs with
    | nil => simp [strLeB] at h1
    | cons b bs =>
      cases cs with
      | nil => simp [strLeB] at h2
      | cons c cs =>
        simp only [strLeB] at h1 h2 ⊢
        by_cases hab : a.toNat < b.toNat
        · by_cases hbc : b.toNat < c.toNat
          · simp [show a.toNat < c.toNat by omega]
          · simp only [if_neg hbc] at h2
            by_cases hcb : c.toNat < b.toNat
            · rw [if_pos hcb] at h2
              exact absurd h2 (by simp)
            · simp [show a.toNat < c.toNat by omega]
        · simp only [if_neg hab] at h1
          by_cases hba : b.toNat < a.toNat
          · rw [if_pos hba] at h1
            exact absurd h1 (by simp)
          · simp only [if_neg hba] at h1
            by_cases hbc : b.toNat < c.toNat
            · simp [show a.toNat < c.toNat by omega]
            · simp only [if_neg hbc] at h2
              by_cases hcb : c.toNat < b.toNat
              · rw [if_pos hcb] at h2
                exact absurd h2 (by simp)
              · simp only [if_neg hcb] at h2
                rw [if_neg (show ¬ a.toNat < c.toNat by omega),
                  if_neg (show ¬ c.toNat < a.toNat by omega)]
                exact ih bs cs h1 h2

theorem strLtB_asymm (as bs : List Char) (h : strLtB as bs = true) :
    strLtB bs as = false := by
  induction as generalizing bs with
  | nil =>
    cases bs with
    | nil => simp [strLtB] at h
    | cons b bs => simp [strLtB]
  | cons a as ih =>
    cases bs with
    | nil => simp [strLtB] at h
    | cons b bs =>
      simp only [strLtB] at h ⊢
      by_cases hab : a.toNat < b.toNat
      · rw [if_neg (show ¬ b.toNat < a.toNat by omega), if_pos hab]
      · simp only [if_neg hab] at h
        by_cases hba : b.toNat < a.toNat
        · rw [if_pos hba] at h
          exact absurd h (by simp)
        · simp only [if_neg hba] at h
          rw [if_neg hba, if_neg hab]
          exact ih bs h

theorem strLeB_nil_right (as : List Char) (h : strLeB as [] = true) : as = [] := by
  cases as with
  | nil => rfl
  | cons a as => simp [strLeB] at h

theorem createdDesc_trans (a b c : StoredDoc) (h1 : createdDesc a b = true)
    (h2 : createdDesc b c = true) : createdDesc a c = true :=
  strLeB_trans (createdKey c) (createdKey b) (createdKey a) h2 h1

theorem createdDesc_total (a b : StoredDoc) : (createdDesc a b || createdDesc b a) = true := by
  have := strLeB_total (createdKey b) (createdKey a)
  simpa [createdDesc, Bool.or_comm] using this

theorem mem_get_announcements (now : String) (store : List StoredDoc) (a : StoredDoc) :
    a ∈ get_announcements now store ↔
      a ∈ store ∧ strLtB now.data a.expiration_date.data = true := by
  unfold get_announcements
  rw [List.mem_mergeSort, List.mem_filter]

theorem applySet_id_eq (u : AnnouncementUpdate) (d : StoredDoc) :
    (applySet u d)._id = d._id := rfl

theorem updateFirst_findOne (oid : String) (u : AnnouncementUpdate)
    (store : List StoredDoc) (old : StoredDoc) (h : findOne oid store = some old) :
    findOne oid (updateFirst oid u store).1 = some (applySet u old) := by
  induction store with
  | nil => simp [findOne] at h
  | cons d ds ih =>
    by_cases hd : d._id = oid
    · simp only [findOne, if_pos hd, Option.some_inj] at h
      subst h
      simp only [updateFirst, if_pos hd]
      simp [findOne, applySet_id_eq, hd]
    · simp only [findOne, if_neg hd] at h
      simp only [updateFirst, if_neg hd]
      simp only [findOne, if_neg hd]
      exact ih h

theorem updateFirst_noop (oid : String) (u : AnnouncementUpdate)
    (store : List StoredDoc) (old : StoredDoc) (h : findOne oid store = some old)
    (hnoop : applySet u old = old) : (updateFirst oid u store).2 = 0 := by
  induction store with
  | nil => simp [findOne] at h
  | cons d ds ih =>
    by_cases hd : d._id = oid
    · simp only [findOne, if_pos hd, Option.some_inj] at h
      subst h
      simp [updateFirst, if_pos hd, hnoop]
    · simp only [findOne, if_neg hd] at h
      simp only [updateFirst, if_neg hd]
      exact ih h

theorem pairwise_created_after_none (l : List StoredDoc)
    (hp : List.Pairwise (fun x y => createdDesc x y = true) l)
    (i j : Nat) (hi : i < l.length) (hj : j < l.length) (hij : i < j)
    (hnone : (l.get ⟨i, hi⟩).created_at = none) :
    createdKey (l.get ⟨j, hj⟩) = [] := by
  have hrel := List.pairwise_iff_getElem.mp hp i j hi hj hij
  have hrel2 : createdDesc (l.get ⟨i, hi⟩) (l.get ⟨j, hj⟩) = true := hrel
  unfold createdDesc at hrel2
  have hkey : createdKey (l.get ⟨i, hi⟩) = [] := by
    unfold createdKey
    rw [hnone]
    decide
  rw [hkey] at hrel2
  exact strLeB_nil_right _ hrel2

/-- C1: the active listing includes exactly the stored announcements whose
`expiration_date` string is lexicographically greater than the current UTC
time's ISO string: a past (lexicographically smaller) `expiration_date` is
excluded, a future (greater) one is included, and `start_date` plays no
role — in particular an announcement whose `start_date` is still in the
future is returned as active as long as its `expiration_date` is in the
future. -/
theorem active_filter_ignores_start_date (now : String) (store : List StoredDoc)
    (a : StoredDoc) (ha : a ∈ store) :
    (strLtB a.expiration_date.data now.data = true → a ∉ get_announcements now store) ∧
    (strLtB now.data a.expiration_date.data = true → a ∈ get_announcements now store) ∧
    (∀ s : String, a.start_date = some s → strLtB now.data s.data = true →
      strLtB now.data a.expiration_date.data = true → a ∈ get_announcements now store) := by
  refine ⟨?_, ?_, ?_⟩
  · intro hpast hmem
    rw [mem_get_announcements] at hmem
    have hasym := strLtB_asymm _ _ hpast
    rw [hmem.2] at hasym
    exact Bool.noConfusion hasym
  · intro hfut
    exact (mem_get_announcements now store a).mpr ⟨ha, hfut⟩
  · intro s _ _ hfut
    exact (mem_get_announcements now store a).mpr ⟨ha, hfut⟩

/-- Witness for C1: a concrete announcement with a future `start_date` and a
future `expiration_date` is listed as active. -/
theorem active_filter_ignores_start_date_witness :
    docW ∈ get_announcements "2026-10-12T00:00:00" [docW] :=
  (active_filter_ignores_start_date "2026-10-12T00:00:00" [docW] docW
    (by decide)).2.1 (by decide)

/-- C7: both listings are sorted by `created_at` descending, with a missing
`created_at` read as the empty string: the outputs are pairwise ordered
under `createdDesc`, `list-all` is a permutation of the whole store and
`list-active` of the filtered store, and in either output every document
following one with no `created_at` has an empty sort key, so documents
lacking `created_at` appear last. -/
theorem listings_sorted_created_at_desc (now : String) (user : Teacher)
    (store : List StoredDoc) :
    List.Pairwise (fun x y => createdDesc x y = true) (get_announcements now store) ∧
    List.Pairwise (fun x y => createdDesc x y = true) (get_all_announcements user store) ∧
    (get_all_announcements user store).Perm store ∧
    (get_announcements now store).Perm
      (store.filter fun a => strLtB now.data a.expiration_date.data) ∧
    (∀ i j (hi : i < (get_all_announcements user store).length)
        (hj : j < (get_all_announcements user store).length), i < j →
      ((get_all_announcements user store).get ⟨i, hi⟩).created_at = none →
      createdKey ((get_all_announcements user store).get ⟨j, hj⟩) = []) ∧
    (∀ i j (hi : i < (get_announcements now store).length)
        (hj : j < (get_announcements now store).length), i < j →
      ((get_announcements now store).get ⟨i, hi⟩).created_at = none →
      createdKey ((get_announcements now store).get ⟨j, hj⟩) = []) := by
  have hp1 : List.Pairwise (fun x y => createdDesc x y = true)
      (get_announcements now store) :=
    List.sorted_mergeSort createdDesc_trans createdDesc_total _
  have hp2 : List.Pairwise (fun x y => createdDesc x y = true)
      (get_all_announcements user store) :=
    List.sorted_mergeSort createdDesc_trans createdDesc_total _
  refine ⟨hp1, hp2, ?_, ?_, ?_, ?_⟩
  · exact List.mergeSort_perm store createdDesc
  · exact List.mergeSort_perm _ createdDesc
  · intro i j hi hj hij hnone
    exact pairwise_created_after_none _ hp2 i j hi hj hij hnone
  · intro i j hi hj hij hnone
    exact pairwise_created_after_none _ hp1 i j hi hj hij hnone

/-- C3: the authenticator's outcome is exactly one of — 401 on malformed
base64, 401 on a missing colon separator, 500 (never a 401) on an
identity-store failure, 401 when no identity is found or the secret fails
verification against the stored hash (a missing hash is verified as the
empty string), and on success the full matched identity record. -/
theorem auth_failure_taxonomy (env : Env) (cred : String) :
    (env.b64decode cred = none ∧
      get_current_user env cred = .error (.http 401 "Invalid token encoding")) ∨
    (∃ d, env.b64decode cred = some d ∧ splitColon d.data = none ∧
      get_current_user env cred = .error (.http 401 "Token format invalid")) ∨
    (∃ d u p, env.b64decode cred = some d ∧ splitColon d.data = some (u, p) ∧
      env.find_teacher (String.mk u) = .error () ∧
      get_current_user env cred =
        .error (.http 500 "Database error during authentication")) ∨
    (∃ d u p, env.b64decode cred = some d ∧ splitColon d.data = some (u, p) ∧
      env.find_teacher (String.mk u) = .ok none ∧
      get_current_user env cred = .error (.http 401 "Invalid credentials")) ∨
    (∃ d u p t, env.b64decode cred = some d ∧ splitColon d.data = some (u, p) ∧
      env.find_teacher (String.mk u) = .ok (some t) ∧
      env.verify_password (t.password.getD "") (String.mk p) = false ∧
      get_current_user env cred = .error (.http 401 "Invalid credentials")) ∨
    (∃ d u p t, env.b64decode cred = some d ∧ splitColon d.data = some (u, p) ∧
      env.find_teacher (String.mk u) = .ok (some t) ∧
      env.verify_password (t.password.getD "") (String.mk p) = true ∧
      get_current_user env cred = .ok t) := by
  cases hdec : env.b64decode cred with
  | none => exact Or.inl ⟨rfl, by simp [get_current_user, hdec]⟩
  | some d =>
    cases hsplit : splitColon d.data with
    | none =>
      exact Or.inr (Or.inl ⟨d, rfl, hsplit, by simp [get_current_user, hdec, hsplit]⟩)
    | some up =>
      obtain ⟨u, p⟩ := up
      cases hfind : env.find_teacher (String.mk u) with
      | error e =>
        refine Or.inr (Or.inr (Or.inl ⟨d, u, p, rfl, hsplit, ?_, ?_⟩))
        · cases e
          exact hfind
        · simp [get_current_user, hdec, hsplit, hfind]
      | ok found =>
        cases found with
        | none =>
          exact Or.inr (Or.inr (Or.inr (Or.inl ⟨d, u, p, rfl, hsplit, hfind,
            by simp [get_current_user, hdec, hsplit, hfind]⟩)))
        | some t =>
          cases hv : env.verify_password (t.password.getD "") (String.mk p) with
          | false =>
            exact Or.inr (Or.inr (Or.inr (Or.inr (Or.inl ⟨d, u, p, t, rfl, hsplit,
              hfind, hv, by simp [get_current_user, hdec, hsplit, hfind, hv]⟩))))
          | true =>
            exact Or.inr (Or.inr (Or.inr (Or.inr (Or.inr ⟨d, u, p, t, rfl, hsplit,
              hfind, hv, by simp [get_current_user, hdec, hsplit, hfind, hv]⟩))))

/-- C2: a valid authenticated create request (title 1–200 characters,
message 1–2000, valid dates, principal with a username on file) persists a
document carrying the generated identifier — whose external string form is
the identifier itself in this model — and fetching via `list-all` yields
that record with every submitted field unchanged. -/
theorem create_then_list_all_round_trip (env : Env) (req : AnnouncementCreate)
    (user : Teacher) (uname : String) (now new_id : String) (store : List StoredDoc)
    (ht1 : 1 ≤ req.title.length) (ht2 : req.title.length ≤ 200)
    (hm1 : 1 ≤ req.message.length) (hm2 : req.message.length ≤ 2000)
    (hs : ∀ s, req.start_date = some s → validate_date env s = true)
    (he : validate_date env req.expiration_date = true)
    (hu : user.username = some uname) :
    ∃ doc : StoredDoc,
      create_announcement env req user now new_id store = (.ok doc, store ++ [doc]) ∧
      doc._id = new_id ∧
      doc ∈ get_all_announcements user (store ++ [doc]) ∧
      doc.title = req.title ∧ doc.message = req.message ∧
      doc.start_date = req.start_date ∧ doc.expiration_date = req.expiration_date := by
  refine ⟨⟨new_id, req.title, req.message, req.start_date, req.expiration_date,
    uname, some now⟩, ?_, rfl, ?_, rfl, rfl, rfl, rfl⟩
  · have hguard : (match req.start_date with
        | some s => !decide (s = "") && !validate_date env s
        | none => false) = false := by
      cases hsd : req.start_date with
      | none => rfl
      | some s => simp [hs s hsd]
    simp [create_announcement, hguard, he, hu]
  · unfold get_all_announcements
    exact List.mem_mergeSort.mpr (by simp)

/-- Witness for C2 at a concrete request, principal and store. -/
theorem create_then_list_all_round_trip_witness :
    ∃ doc : StoredDoc,
      create_announcement envW reqW teacherW "2026-10-12T00:00:00" idW [] =
        (.ok doc, [] ++ [doc]) ∧
      doc._id = idW ∧
      doc ∈ get_all_announcements teacherW ([] ++ [doc]) ∧
      doc.title = reqW.title ∧ doc.message = reqW.message ∧
      doc.start_date = reqW.start_date ∧ doc.expiration_date = reqW.expiration_date :=
  create_then_list_all_round_trip envW reqW teacherW "alice" "2026-10-12T00:00:00" idW []
    (by decide) (by decide) (by decide) (by decide) (fun s _ => rfl) rfl rfl

/-- C4: a successful update rewrites exactly the supplied fields of the
target record, and every omitted field — `_id`, `created_by` and
`created_at` can never be supplied at all — keeps its prior value (omitted
fields are not nulled). -/
theorem update_modifies_only_supplied_fields (env : Env) (announcement_id : String)
    (payload : AnnouncementUpdate) (store : List StoredDoc) (oid : String)
    (old d : StoredDoc)
    (hid : objectIdParse announcement_id = some oid)
    (hfind : findOne oid store = some old)
    (hok : (update_announcement env announcement_id payload store).1 = .ok d) :
    d.title = payload.title.getD old.title ∧
    d.message = payload.message.getD old.message ∧
    d.start_date = (match payload.start_date with
      | some s => some s
      | none => old.start_date) ∧
    d.expiration_date = payload.expiration_date.getD old.expiration_date ∧
    d._id = old._id ∧ d.created_by = old.created_by ∧ d.created_at = old.created_at := by
  have hfound := updateFirst_findOne oid payload store old hfind
  simp only [update_announcement, hid, hfind] at hok
  split at hok
  · simp at hok
  · split at hok
    · simp at hok
    · split at hok
      · simp at hok
      · split at hok
        · simp at hok
        · rw [hfound] at hok
          simp only [Except.ok.injEq] at hok
          subst hok
          exact ⟨rfl, rfl, rfl, rfl, rfl, rfl, rfl⟩

/-- Witness for C4: updating only the title changes only the title. -/
theorem update_modifies_only_supplied_fields_witness :
    ({ docW with title := "New" } : StoredDoc).title =
      (some "New" : Option String).getD docW.title ∧
    ({ docW with title := "New" } : StoredDoc).created_at = docW.created_at :=
  have h := update_modifies_only_supplied_fields envW idW
    ⟨some "New", none, none, none⟩ [docW] idW docW { docW with title := "New" }
    (by decide) (by decide) (by decide)
  ⟨h.1, h.2.2.2.2.2.2⟩

/-- C5 counterexample: an authenticated update setting `title` to the value
it already holds in the store makes the store report zero modified
documents, and the handler answers the internal error 500 "Failed to update
announcement" instead of succeeding. -/
theorem noop_update_returns_500 :
    (update_announcement envW idW ⟨some "Title", none, none, none⟩ [docW]).1 =
      .error (.http 500 "Failed to update announcement") := by decide

/-- C5 amended: an update whose `$set` leaves the stored document unchanged
(every supplied field already holds its stored value) does not succeed: it
fails with `InternalError(update_not_applied)` — HTTP 500, detail "Failed
to update announcement". -/
theorem noop_update_fails (env : Env) (announcement_id : String)
    (payload : AnnouncementUpdate) (store : List StoredDoc) (oid : String)
    (old : StoredDoc)
    (hid : objectIdParse announcement_id = some oid)
    (hfind : findOne oid store = some old)
    (hsv : ∀ s, payload.start_date = some s → validate_date env s = true)
    (hev : ∀ s, payload.expiration_date = some s → validate_date env s = true)
    (hne : updateEmpty payload = false)
    (hnoop : applySet payload old = old) :
    (update_announcement env announcement_id payload store).1 =
      .error (.http 500 "Failed to update announcement") := by
  have hcount := updateFirst_noop oid payload store old hfind hnoop
  have hg1 : (match payload.start_date with
      | some s => !validate_date env s
      | none => false) = false := by
    cases hsd : payload.start_date with
    | none => rfl
    | some s => simp [hsv s hsd]
  have hg2 : (match payload.expiration_date with
      | some s => !validate_date env s
      | none => false) = false := by
    cases hed : payload.expiration_date with
    | none => rfl
    | some s => simp [hev s hed]
  simp [update_announcement, hid, hfind, hg1, hg2, hne, hcount]

/-- Witness for the amended C5: a constant-value update of both `title` and
`message` fails with the 500. -/
theorem noop_update_fails_witness :
    (update_announcement envW idW ⟨some "Title", some "Msg", none, none⟩ [docW]).1 =
      .error (.http 500 "Failed to update announcement") :=
  noop_update_fails envW idW ⟨some "Title", some "Msg", none, none⟩ [docW] idW docW
    (by decide) (by decide) (fun s h => nomatch h) (fun s h => nomatch h)
    (by decide) (by decide)

/-- C6: an identifier that does not parse as an ObjectId makes both update
and delete answer 400 "Invalid announcement ID" — never 404 — whatever the
payload and the store contents, and the store is left unchanged. -/
theorem invalid_id_yields_400 (env : Env) (announcement_id : String)
    (payload : AnnouncementUpdate) (store : List StoredDoc)
    (h : objectIdParse announcement_id = none) :
    update_announcement env announcement_id payload store =
      (.error (.http 400 "Invalid announcement ID"), store) ∧
    delete_announcement announcement_id store =
      (.error (.http 400 "Invalid announcement ID"), store) := by
  constructor
  · simp [update_announcement, h]
  · simp [delete_announcement, h]

/-- Witness for C6 at a concrete malformed identifier. -/
theorem invalid_id_yields_400_witness :
    update_announcement envW "not-a-valid-objectid" ⟨some "t", none, none, none⟩ [docW] =
      (.error (.http 400 "Invalid announcement ID"), [docW]) ∧
    delete_announcement "not-a-valid-objectid" [docW] =
      (.error (.http 400 "Invalid announcement ID"), [docW]) :=
  invalid_id_yields_400 envW "not-a-valid-objectid" ⟨some "t", none, none, none⟩ [docW]
    (by decide)

/-- C8 counterexample: with an empty payload but a well-formed identifier
matching no stored announcement, the handler answers 404 "Announcement not
found", not 400 "No fields to update" — the claimed error does not occur
for every empty-payload request. -/
theorem empty_update_on_missing_target_is_404 :
    (update_announcement envW idW ⟨none, none, none, none⟩ []).1 =
      .error (.http 404 "Announcement not found") ∧
    (update_announcement envW idW ⟨none, none, none, none⟩ []).1 ≠
      .error (.http 400 "No fields to update") := by decide

/-- C8 amended: when the identifier parses and the target record exists, an
update payload supplying none of `title`, `message`, `start_date`,
`expiration_date` fails with 400 "No fields to update" and leaves the store
unchanged. -/
theorem empty_update_rejected (env : Env) (announcement_id : String)
    (payload : AnnouncementUpdate) (store : List StoredDoc) (oid : String)
    (old : StoredDoc)
    (hid : objectIdParse announcement_id = some oid)
    (hfind : findOne oid store = some old)
    (ht : payload.title = none) (hm : payload.message = none)
    (hsd : payload.start_date = none) (hed : payload.expiration_date = none) :
    update_announcement env announcement_id payload store =
      (.error (.http 400 "No fields to update"), store) := by
  simp [update_announcement, hid, hfind, hsd, hed, updateEmpty, ht, hm]

/-- Witness for the amended C8: the empty payload on an existing record. -/
theorem empty_update_rejected_witness :
    update_announcement envW idW ⟨none, none, none, none⟩ [docW] =
      (.error (.http 400 "No fields to update"), [docW]) :=
  empty_update_rejected envW idW ⟨none, none, none, none⟩ [docW] idW docW
    (by decide) (by decide) rfl rfl rfl rfl

/-- C9: authentication looks the principal up by `_id` and can succeed for a
record with no `username` key, but `create` then reads
`current_user["username"]`; for such a record an otherwise valid create
request raises an unhandled `KeyError` — not one of the documented error
responses — after authentication has succeeded. -/
theorem create_keyerror_when_username_missing (env : Env) (cred : String)
    (decoded : String) (u p : List Char) (t : Teacher) (req : AnnouncementCreate)
    (now new_id : String) (store : List StoredDoc)
    (hdec : env.b64decode cred = some decoded)
    (hsplit : splitColon decoded.data = some (u, p))
    (hfind : env.find_teacher (String.mk u) = .ok (some t))
    (hverify : env.verify_password (t.password.getD "") (String.mk p) = true)
    (hnouser : t.username = none)
    (hs : ∀ s, req.start_date = some s → validate_date env s = true)
    (he : validate_date env req.expiration_date = true) :
    get_current_user env cred = .ok t ∧
    (create_announcement env req t now new_id store).1 = .error (.keyError "username") := by
  constructor
  · simp [get_current_user, hdec, hsplit, hfind, hverify]
  · have hguard : (match req.start_date with
        | some s => !decide (s = "") && !validate_date env s
        | none => false) = false := by
      cases hsd : req.start_date with
      | none => rfl
      | some s => simp [hs s hsd]
    simp [create_announcement, hguard, he, hnouser]

/-- Witness for C9: a concrete identity record without a username
authenticates, then create raises the `KeyError`. -/
theorem create_keyerror_when_username_missing_witness :
    get_current_user envNoName "token" = .ok teacherNoName ∧
    (create_announcement envNoName reqW teacherNoName "2026-10-12T00:00:00" idW []).1 =
      .error (.keyError "username") :=
  create_keyerror_when_username_missing envNoName "token" "u:p" ['u'] ['p']
    teacherNoName reqW "2026-10-12T00:00:00" idW [] rfl (by decide) rfl rfl rfl
    (fun s _ => rfl) rfl

/-- C10: the existence check precedes date validation and the empty-payload
check: a well-formed identifier matching no record yields 404 whatever the
payload; and whenever update answers one of the three 400 details for an
invalid supplied date or an empty payload, the identifier parsed and the
target record exists. -/
theorem update_existence_check_first (env : Env) (announcement_id : String)
    (payload : AnnouncementUpdate) (store : List StoredDoc) (oid : String)
    (hid : objectIdParse announcement_id = some oid)
    (hmiss : findOne oid store = none) :
    update_announcement env announcement_id payload store =
      (.error (.http 404 "Announcement not found"), store) ∧
    ∀ (env2 : Env) (id2 : String) (p2 : AnnouncementUpdate) (s2 : List StoredDoc)
      (detail : String),
      (detail = "Invalid start_date format" ∨ detail = "Invalid expiration_date format" ∨
        detail = "No fields to update") →
      (update_announcement env2 id2 p2 s2).1 = .error (.http 400 detail) →
      ∃ oid2 old, objectIdParse id2 = some oid2 ∧ findOne oid2 s2 = some old := by
  constructor
  · simp [update_announcement, hid, hmiss]
  · intro env2 id2 p2 s2 detail hdetail hres
    cases hp : objectIdParse id2 with
    | none =>
      simp [update_announcement, hp] at hres
      rcases hdetail with h | h | h <;> subst h <;> exact absurd hres.symm (by decide)
    | some oid2 =>
      cases hf : findOne oid2 s2 with
      | none => simp [update_announcement, hp, hf] at hres
      | some old => exact ⟨oid2, old, rfl, hf⟩

/-- Witness for C10: an empty payload with an invalid supplied date field on
a missing target still answers 404. -/
theorem update_existence_check_first_witness :
    update_announcement envW idW ⟨none, none, some "not-a-date", none⟩ [] =
      (.error (.http 404 "Announcement not found"), []) :=
  (update_existence_check_first envW idW ⟨none, none, some "not-a-date", none⟩ [] idW
    (by decide) rfl).1
